import Mathlib

/-!
Verification of the report-aggregation logic of the docker-hardening-project
repository (`parse_results.py` and `create_graphs.py`).

The two Python scripts read a Trivy JSON report, tally vulnerability counts
by severity, and render either a console table (`parse_results.py`) or bar
charts (`create_graphs.py`).  The JSON values decoded by `json.load` are
embedded as the inductive type `JSON`; the dynamically-typed Python
operations used by the scripts (`in`, subscript, `len`, iteration,
`dict.get`) are embedded as functions into `Except String`, whose `.error`
constructor stands for a raised Python exception (the string names the
exception class).  File I/O is abstracted by `LoadResult`: the outcome of
`open` + `json.load`, which the scripts observe only through the three
cases file-not-found / decode-error / decoded-data.
-/

/-- A decoded JSON value, as produced by Python's `json.load`: `None`,
booleans, numbers (the reports only carry integers), strings, lists and
string-keyed dicts.  `json.load` never produces duplicate keys in a dict.
Structural equality on this type models Python `==` on decoded values
(we do not model Python's numeric coercion `True == 1`, which no Trivy
report exercises). -/
inductive JSON where
  | null : JSON
  | bool (b : Bool) : JSON
  | num (n : Int) : JSON
  | str (s : String) : JSON
  | arr (elems : List JSON) : JSON
  | obj (fields : List (String × JSON)) : JSON

mutual

/-- Decidable equality on `JSON`, written by hand because the automatic
derivation does not handle the nesting through `List`. -/
def JSON.decEq : (a b : JSON) → Decidable (a = b)
  | JSON.null, JSON.null => isTrue rfl
  | JSON.null, JSON.bool _ => isFalse (fun h => nomatch h)
  | JSON.null, JSON.num _ => isFalse (fun h => nomatch h)
  | JSON.null, JSON.str _ => isFalse (fun h => nomatch h)
  | JSON.null, JSON.arr _ => isFalse (fun h => nomatch h)
  | JSON.null, JSON.obj _ => isFalse (fun h => nomatch h)
  | JSON.bool _, JSON.null => isFalse (fun h => nomatch h)
  | JSON.bool x, JSON.bool y =>
    if h : x = y then isTrue (by rw [h]) else isFalse (fun hh => h (JSON.bool.inj hh))
  | JSON.bool _, JSON.num _ => isFalse (fun h => nomatch h)
  | JSON.bool _, JSON.str _ => isFalse (fun h => nomatch h)
  | JSON.bool _, JSON.arr _ => isFalse (fun h => nomatch h)
  | JSON.bool _, JSON.obj _ => isFalse (fun h => nomatch h)
  | JSON.num _, JSON.null => isFalse (fun h => nomatch h)
  | JSON.num _, JSON.bool _ => isFalse (fun h => nomatch h)
  | JSON.num x, JSON.num y =>
    if h : x = y then isTrue (by rw [h]) else isFalse (fun hh => h (JSON.num.inj hh))
  | JSON.num _, JSON.str _ => isFalse (fun h => nomatch h)
  | JSON.num _, JSON.arr _ => isFalse (fun h => nomatch h)
  | JSON.num _, JSON.obj _ => isFalse (fun h => nomatch h)
  | JSON.str _, JSON.null => isFalse (fun h => nomatch h)
  | JSON.str _, JSON.bool _ => isFalse (fun h => nomatch h)
  | JSON.str _, JSON.num _ => isFalse (fun h => nomatch h)
  | JSON.str x, JSON.str y =>
    if h : x = y then isTrue (by rw [h]) else isFalse (fun hh => h (JSON.str.inj hh))
  | JSON.str _, JSON.arr _ => isFalse (fun h => nomatch h)
  | JSON.str _, JSON.obj _ => isFalse (fun h => nomatch h)
  | JSON.arr _, JSON.null => isFalse (fun h => nomatch h)
  | JSON.arr _, JSON.bool _ => isFalse (fun h => nomatch h)
  | JSON.arr _, JSON.num _ => isFalse (fun h => nomatch h)
  | JSON.arr _, JSON.str _ => isFalse (fun h => nomatch h)
  | JSON.arr xs, JSON.arr ys =>
    match JSON.decEqList xs ys with
    | isTrue h => isTrue (by rw [h])
    | isFalse h => isFalse (fun hh => h (JSON.arr.inj hh))
  | JSON.arr _, JSON.obj _ => isFalse (fun h => nomatch h)
  | JSON.obj _, JSON.null => isFalse (fun h => nomatch h)
  | JSON.obj _, JSON.bool _ => isFalse (fun h => nomatch h)
  | JSON.obj _, JSON.num _ => isFalse (fun h => nomatch h)
  | JSON.obj _, JSON.str _ => isFalse (fun h => nomatch h)
  | JSON.obj _, JSON.arr _ => isFalse (fun h => nomatch h)
  | JSON.obj fs, JSON.obj gs =>
    match JSON.decEqFields fs gs with
    | isTrue h => isTrue (by rw [h])
    | isFalse h => isFalse (fun hh => h (JSON.obj.inj hh))

/-- Decidable equality on lists of `JSON` values. -/
def JSON.decEqList : (xs ys : List JSON) → Decidable (xs = ys)
  | [], [] => isTrue rfl
  | [], _ :: _ => isFalse (fun h => nomatch h)
  | _ :: _, [] => isFalse (fun h => nomatch h)
  | x :: xs, y :: ys =>
    match JSON.decEq x y with
    | isFalse h => isFalse (fun hh => h (List.cons.inj hh).1)
    | isTrue h1 =>
      match JSON.decEqList xs ys with
      | isTrue h2 => isTrue (by rw [h1, h2])
      | isFalse h2 => isFalse (fun hh => h2 (List.cons.inj hh).2)

/-- Decidable equality on `JSON` dict field lists. -/
def JSON.decEqFields : (xs ys : List (String × JSON)) → Decidable (xs = ys)
  | [], [] => isTrue rfl
  | [], _ :: _ => isFalse (fun h => nomatch h)
  | _ :: _, [] => isFalse (fun h => nomatch h)
  | (k1, v1) :: xs, (k2, v2) :: ys =>
    if hk : k1 = k2 then
      match JSON.decEq v1 v2 with
      | isTrue hv =>
        match JSON.decEqFields xs ys with
        | isTrue ht => isTrue (by rw [hk, hv, ht])
        | isFalse ht => isFalse (fun hh => ht (List.cons.inj hh).2)
      | isFalse hv => isFalse (fun hh => hv (congrArg Prod.snd (List.cons.inj hh).1))
    else isFalse (fun hh => hk (congrArg Prod.fst (List.cons.inj hh).1))

end

instance : DecidableEq JSON := JSON.decEq

/-- First binding of key `k` in a decoded dict (dicts from `json.load` have
unique keys, so first = only). -/
def lookupField : List (String × JSON) → String → Option JSON
  | [], _ => none
  | (k2, v) :: rest, k => if k2 = k then some v else lookupField rest k

/-- Python substring test `pat in s` for strings. -/
def strContainsSub (s pat : String) : Bool :=
  if pat = "" then true else decide (2 ≤ (s.splitOn pat).length)

/-- Python membership `k in j` for a string `k`: key test on a dict,
element test on a list, substring test on a string; `TypeError` on
non-container values (`None`, booleans, numbers are not iterable). -/
def pyContains : JSON → String → Except String Bool
  | JSON.obj fields, k => Except.ok (lookupField fields k).isSome
  | JSON.arr xs, k => Except.ok (xs.any fun x => decide (x = JSON.str k))
  | JSON.str s, k => Except.ok (strContainsSub s k)
  | _, _ => Except.error "TypeError"

/-- Python subscript `j[k]` with a string key: dict lookup (`KeyError` when
absent); `TypeError` on every non-dict value (list and string subscripts
require integers). -/
def pyIndex : JSON → String → Except String JSON
  | JSON.obj fields, k =>
    match lookupField fields k with
    | some v => Except.ok v
    | none => Except.error "KeyError"
  | _, _ => Except.error "TypeError"

/-- Python `len(j)`: defined for strings, lists and dicts; `TypeError`
otherwise. -/
def pyLen : JSON → Except String Nat
  | JSON.str s => Except.ok s.length
  | JSON.arr xs => Except.ok xs.length
  | JSON.obj fields => Except.ok fields.length
  | _ => Except.error "TypeError"

/-- Python iteration `for x in j`: characters of a string (as one-character
strings), elements of a list, keys of a dict; `TypeError` otherwise. -/
def pyIter : JSON → Except String (List JSON)
  | JSON.str s => Except.ok (s.toList.map fun c => JSON.str (String.mk [c]))
  | JSON.arr xs => Except.ok xs
  | JSON.obj fields => Except.ok (fields.map fun kv => JSON.str kv.1)
  | _ => Except.error "TypeError"

/-- Python `j.get(k, dflt)`: only dicts have a `.get` method
(`AttributeError` otherwise); returns the stored value even when that value
is `None`. -/
def pyGet : JSON → String → JSON → Except String JSON
  | JSON.obj fields, k, dflt => Except.ok ((lookupField fields k).getD dflt)
  | _, _, _ => Except.error "AttributeError"

/-- The scripts' `collections.Counter`, restricted to what they use:
an insertion-ordered association list from (arbitrary hashable) keys to
counts.  `severity_counts[k] += 1` inserts a fresh key with count 1. -/
abbrev Counter := List (JSON × Nat)

/-- `counter[k] += 1`. -/
def Counter.incr : Counter → JSON → Counter
  | [], k => [(k, 1)]
  | (k2, n) :: rest, k =>
    if k2 = k then (k2, n + 1) :: rest else (k2, n) :: Counter.incr rest k

/-- `counter.get(k, 0)`: the stored count, defaulting to 0. -/
def Counter.get : Counter → JSON → Nat
  | [], _ => 0
  | (k2, n) :: rest, k => if k2 = k then n else Counter.get rest k

/-- `sum(counter.values())`. -/
def Counter.total (c : Counter) : Nat := (c.map Prod.snd).sum

/-- `list(counter.keys())`. -/
def Counter.keys (c : Counter) : List JSON := c.map Prod.fst

/-- Whether a decoded JSON value is hashable in Python (usable as a
`Counter` key): lists and dicts are not. -/
def hashable : JSON → Bool
  | JSON.arr _ => false
  | JSON.obj _ => false
  | _ => true

/-- `parse_results.py` lines 42-44 (and `create_graphs.py` lines 27-29):
`severity = vuln.get('Severity', 'UNKNOWN'); severity_counts[severity] += 1`.
Indexing a `Counter` with an unhashable key raises `TypeError`. -/
def processVuln (c : Counter) (vuln : JSON) : Except String Counter :=
  match pyGet vuln "Severity" (JSON.str "UNKNOWN") with
  | Except.error e => Except.error e
  | Except.ok sev =>
    if hashable sev then Except.ok (c.incr sev) else Except.error "TypeError"

/-- `parse_results.py` lines 36-44: one iteration of the loop over
`report['Results']`, threading the state `(severity_counts,
total_vulnerabilities)`.  Tests `'Vulnerabilities' in result and
result['Vulnerabilities'] is not None`, then adds
`len(result['Vulnerabilities'])` to the total and tallies each entry. -/
def processResult (st : Counter × Nat) (result : JSON) : Except String (Counter × Nat) :=
  match pyContains result "Vulnerabilities" with
  | Except.error e => Except.error e
  | Except.ok false => Except.ok st
  | Except.ok true =>
    match pyIndex result "Vulnerabilities" with
    | Except.error e => Except.error e
    | Except.ok v =>
      if v = JSON.null then Except.ok st
      else
        match pyLen v with
        | Except.error e => Except.error e
        | Except.ok n =>
          match pyIter v with
          | Except.error e => Except.error e
          | Except.ok vulns =>
            match vulns.foldlM processVuln st.1 with
            | Except.error e => Except.error e
            | Except.ok c => Except.ok (c, st.2 + n)

/-- `parse_results.py` lines 32-44: one iteration of the loop over
`report_data`.  Tests `'Results' in report and isinstance(report['Results'],
list)` and folds `processResult` over the sections. -/
def processReport (st : Counter × Nat) (report : JSON) : Except String (Counter × Nat) :=
  match pyContains report "Results" with
  | Except.error e => Except.error e
  | Except.ok false => Except.ok st
  | Except.ok true =>
    match pyIndex report "Results" with
    | Except.error e => Except.error e
    | Except.ok (JSON.arr results) => results.foldlM processResult st
    | Except.ok _ => Except.ok st

/-- `parse_results.py` lines 29-44: the whole aggregation.
`report_data = data if isinstance(data, list) else [data]`, then the loop,
starting from an empty `Counter` and `total_vulnerabilities = 0`.  Returns
the final `(severity_counts, total_vulnerabilities)`, or the exception the
traversal raised. -/
def severityAggregate (data : JSON) : Except String (Counter × Nat) :=
  (match data with
   | JSON.arr xs => xs
   | d => [d]).foldlM processReport ([], 0)

/-- `create_graphs.py` lines 26-29: one iteration of the loop over
`data['Results']` in `parse_trivy_json`.  Identical to `processResult`
except that no running total is kept (so no `len` call is made). -/
def processResultCG (c : Counter) (result : JSON) : Except String Counter :=
  match pyContains result "Vulnerabilities" with
  | Except.error e => Except.error e
  | Except.ok false => Except.ok c
  | Except.ok true =>
    match pyIndex result "Vulnerabilities" with
    | Except.error e => Except.error e
    | Except.ok v =>
      if v = JSON.null then Except.ok c
      else
        match pyIter v with
        | Except.error e => Except.error e
        | Except.ok vulns => vulns.foldlM processVuln c

/-- `create_graphs.py` lines 19-30: the aggregation inside
`parse_trivy_json`, applied to the already-decoded `data`.  Note there is
no `isinstance(data, list)` wrapping step: the function tests
`'Results' in data` directly on whatever `json.load` returned. -/
def parse_trivy_json_core (data : JSON) : Except String Counter :=
  match pyContains data "Results" with
  | Except.error e => Except.error e
  | Except.ok false => Except.ok []
  | Except.ok true =>
    match pyIndex data "Results" with
    | Except.error e => Except.error e
    | Except.ok (JSON.arr results) => results.foldlM processResultCG []
    | Except.ok _ => Except.ok []

/-- The severity label the scripts compute for one Finding:
`vuln.get('Severity', 'UNKNOWN')`, failing exactly where
`severity_counts[severity] += 1` would fail on it. -/
def vulnSeverity (vuln : JSON) : Except String JSON :=
  match pyGet vuln "Severity" (JSON.str "UNKNOWN") with
  | Except.error e => Except.error e
  | Except.ok sev =>
    if hashable sev then Except.ok sev else Except.error "TypeError"

/-- The sequence of severity labels one ResultSection contributes, in
traversal order (a specification-side companion of `processResult`). -/
def sectionSeverities (result : JSON) : Except String (List JSON) :=
  match pyContains result "Vulnerabilities" with
  | Except.error e => Except.error e
  | Except.ok false => Except.ok []
  | Except.ok true =>
    match pyIndex result "Vulnerabilities" with
    | Except.error e => Except.error e
    | Except.ok v =>
      if v = JSON.null then Except.ok []
      else
        match pyIter v with
        | Except.error e => Except.error e
        | Except.ok vulns => vulns.mapM vulnSeverity

/-- Accumulating concatenation of the severity sequences of a list of
nodes, under a per-node severity function `g`. -/
def sevListFold (g : JSON → Except String (List JSON)) (xs : List JSON)
    (acc : List JSON) : Except String (List JSON) :=
  xs.foldlM (fun a x => (g x).map (fun ls => a ++ ls)) acc

/-- The sequence of severity labels one report document contributes. -/
def docSeverities (report : JSON) : Except String (List JSON) :=
  match pyContains report "Results" with
  | Except.error e => Except.error e
  | Except.ok false => Except.ok []
  | Except.ok true =>
    match pyIndex report "Results" with
    | Except.error e => Except.error e
    | Except.ok (JSON.arr results) => sevListFold sectionSeverities results []
    | Except.ok _ => Except.ok []

/-- The sequence of severity labels a whole decoded input contributes,
after the single-object-or-sequence normalization of `parse_results.py`. -/
def jsonSeverities (data : JSON) : Except String (List JSON) :=
  sevListFold docSeverities
    (match data with
     | JSON.arr xs => xs
     | d => [d]) []

/-- A Finding on which the per-vulnerability step cannot raise: a dict
whose `Severity` value (when present) is hashable. -/
def findingOK : JSON → Bool
  | JSON.obj fields =>
    match lookupField fields "Severity" with
    | some v => hashable v
    | none => true
  | _ => false

/-- A ResultSection on which the per-section step cannot raise: a dict
whose `Vulnerabilities` field is absent, null, or a list of good
Findings. -/
def sectionOK : JSON → Bool
  | JSON.obj fields =>
    match lookupField fields "Vulnerabilities" with
    | none => true
    | some JSON.null => true
    | some (JSON.arr vulns) => vulns.all findingOK
    | some _ => false
  | _ => false

/-- A report document on which the per-document step cannot raise: a dict
whose `Results` field, when it is a list, holds only good
ResultSections. -/
def docOK : JSON → Bool
  | JSON.obj fields =>
    match lookupField fields "Results" with
    | some (JSON.arr results) => results.all sectionOK
    | _ => true
  | _ => false

/-- A decoded input on which the whole aggregation cannot raise. -/
def reportOK : JSON → Bool
  | JSON.arr docs => docs.all docOK
  | d => docOK d

/-- Python `f"{s:<10}"`-style left justification: pad with spaces to width
`w`, leaving longer strings unchanged. -/
def ljust (s : String) (w : Nat) : String :=
  s ++ String.mk (List.replicate (w - s.length) ' ')

/-- `parse_results.py` line 50: the fixed print order of severities. -/
def severityOrder : List String := ["CRITICAL", "HIGH", "MEDIUM", "LOW", "UNKNOWN"]

/-- `parse_results.py` lines 47-56: the arguments of the `print` calls of
the summary table, in order. -/
def summaryPrints (counts : Counter) (total : Nat) (filename : String) : List String :=
  ["\n--- Vulnerability Scan Summary for: " ++ filename ++ " ---"]
  ++ severityOrder.map
      (fun sev => ljust sev 10 ++ ": " ++ toString (counts.get (JSON.str sev)))
  ++ ["-------------------------------------------------",
      ljust "TOTAL" 10 ++ ": " ++ toString total,
      "--- End of Summary ---\n"]

/-- The spec's description of the text output, written out literally:
one line per severity in the fixed order, each a left-justified
10-character label, `: `, and the count (0 for labels absent from the
tally), then a separator line and a `TOTAL` line. -/
def summaryPrintsSpec (counts : Counter) (total : Nat) (filename : String) : List String :=
  ["\n--- Vulnerability Scan Summary for: " ++ filename ++ " ---",
   "CRITICAL  : " ++ toString (counts.get (JSON.str "CRITICAL")),
   "HIGH      : " ++ toString (counts.get (JSON.str "HIGH")),
   "MEDIUM    : " ++ toString (counts.get (JSON.str "MEDIUM")),
   "LOW       : " ++ toString (counts.get (JSON.str "LOW")),
   "UNKNOWN   : " ++ toString (counts.get (JSON.str "UNKNOWN")),
   "-------------------------------------------------",
   "TOTAL     : " ++ toString total,
   "--- End of Summary ---\n"]

/-- What `open(filename)` + `json.load(f)` can yield, as the scripts
observe it: the file is missing, the content is not valid JSON, or a
decoded value. -/
inductive LoadResult where
  | fileNotFound : LoadResult
  | decodeError : LoadResult
  | ok (data : JSON) : LoadResult
deriving DecidableEq

/-- Observable outcome of one run of the `parse_results.py` script:
every printed line in order, the summary table (when one was printed),
and the process exit status. -/
structure PROutcome where
  printed : List String
  summary : Option (List String)
  exitCode : Nat
deriving DecidableEq

/-- The whole `parse_results.py` script, as a function of `sys.argv` and
of the outcome of loading `sys.argv[1]`.  Lines 11-14 handle the missing
argument with `sys.exit(1)`; the `try` block runs the aggregation and
prints the summary; the three `except` clauses print one message each and
fall through to the end of the script, which exits with status 0. -/
def parseResultsMain (argv : List String) (load : LoadResult) : PROutcome :=
  if argv.length < 2 then
    { printed := ["Error: Please provide the JSON filename as an argument.",
                  "Usage: python parse_results.py <filename>"],
      summary := none,
      exitCode := 1 }
  else
    let filename := argv.getD 1 ""
    match load with
    | LoadResult.fileNotFound =>
      { printed := ["Error: The file \x27" ++ filename ++ "\x27 was not found."],
        summary := none,
        exitCode := 0 }
    | LoadResult.decodeError =>
      { printed := ["Error: Could not decode the JSON from \x27" ++ filename
                    ++ "\x27. It might be empty or corrupted."],
        summary := none,
        exitCode := 0 }
    | LoadResult.ok data =>
      match severityAggregate data with
      | Except.error e =>
        { printed := ["An unexpected error occurred: " ++ e],
          summary := none,
          exitCode := 0 }
      | Except.ok (counts, total) =>
        { printed := summaryPrints counts total filename,
          summary := some (summaryPrints counts total filename),
          exitCode := 0 }

/-- Outcome of one call of `parse_trivy_json` in `create_graphs.py`:
either it printed a message and called `sys.exit(code)`, or an exception
escaped it, or it returned a tally (and the caller goes on to draw the
charts). -/
inductive CGParseResult where
  | exited (message : String) (code : Nat) : CGParseResult
  | raised (e : String) : CGParseResult
  | returned (counts : Counter) : CGParseResult
deriving DecidableEq

/-- The whole `parse_trivy_json` function of `create_graphs.py`, as a
function of the filename and of the outcome of loading it: both error
clauses print one message and call `sys.exit(1)`; an exception in the
traversal escapes uncaught. -/
def parse_trivy_json_run (filename : String) (load : LoadResult) : CGParseResult :=
  match load with
  | LoadResult.fileNotFound =>
    CGParseResult.exited
      ("Error: The file \x27" ++ filename ++ "\x27 was not found. Please generate the report first.") 1
  | LoadResult.decodeError =>
    CGParseResult.exited
      ("Error: Could not decode the JSON from \x27" ++ filename ++ "\x27. It may be corrupted.") 1
  | LoadResult.ok data =>
    match parse_trivy_json_core data with
    | Except.error e => CGParseResult.raised e
    | Except.ok counts => CGParseResult.returned counts

example :
    severityAggregate
      (JSON.obj [("Results", JSON.arr
        [JSON.obj [("Vulnerabilities", JSON.arr
          [JSON.obj [("Severity", JSON.str "HIGH")],
           JSON.obj [("Severity", JSON.str "HIGH")],
           JSON.obj []])]])]) =
      Except.ok ([(JSON.str "HIGH", 2), (JSON.str "UNKNOWN", 1)], 3) := by
  rfl

example :
    severityAggregate
      (JSON.obj [("Results", JSON.arr
        [JSON.obj [("Vulnerabilities", JSON.null)],
         JSON.obj [("Vulnerabilities", JSON.arr
           [JSON.obj [("Severity", JSON.str "LOW")]])]])]) =
      Except.ok ([(JSON.str "LOW", 1)], 1) := by
  rfl

theorem Counter.total_incr (c : Counter) (k : JSON) :
    (c.incr k).total = c.total + 1 := by
  induction c with
  | nil => rfl
  | cons p rest ih =>
    obtain ⟨k2, n⟩ := p
    by_cases h : k2 = k
    · simp [Counter.incr, h, Counter.total]
      omega
    · simp [Counter.incr, h, Counter.total] at ih ⊢
      omega

theorem Counter.total_foldl (L : List JSON) :
    ∀ c : Counter, (L.foldl Counter.incr c).total = c.total + L.length := by
  induction L with
  | nil => intro c; simp
  | cons x rest ih =>
    intro c
    simp only [List.foldl_cons, ih, Counter.total_incr, List.length_cons]
    omega

theorem Counter.mem_keys_incr (c : Counter) (k m : JSON) :
    m ∈ (c.incr k).keys ↔ m ∈ c.keys ∨ m = k := by
  induction c with
  | nil => simp [Counter.incr, Counter.keys]
  | cons p rest ih =>
    obtain ⟨k2, n⟩ := p
    by_cases h : k2 = k
    · subst h
      simp [Counter.incr, Counter.keys]
      tauto
    · simp [Counter.incr, h, Counter.keys] at ih ⊢
      tauto

theorem Counter.mem_keys_foldl (L : List JSON) :
    ∀ (c : Counter) (m : JSON),
      m ∈ (L.foldl Counter.incr c).keys ↔ m ∈ c.keys ∨ m ∈ L := by
  induction L with
  | nil => intro c m; simp
  | cons x rest ih =>
    intro c m
    simp only [List.foldl_cons, ih, Counter.mem_keys_incr, List.mem_cons]
    tauto

theorem Counter.one_le_incr (c : Counter) (k : JSON)
    (h : ∀ p ∈ c, 1 ≤ p.2) : ∀ p ∈ c.incr k, 1 ≤ p.2 := by
  induction c with
  | nil => simp [Counter.incr]
  | cons q rest ih =>
    obtain ⟨k2, n⟩ := q
    by_cases hk : k2 = k
    · subst hk
      simp [Counter.incr]
      intro a b hab
      exact h (a, b) (by simp [hab])
    · simp [Counter.incr, hk] at h ⊢
      refine ⟨by omega, ?_⟩
      intro a b hab
      have := ih (fun p hp => h.2 p.1 p.2 hp)
      exact this (a, b) hab

theorem Counter.one_le_foldl (L : List JSON) :
    ∀ c : Counter, (∀ p ∈ c, 1 ≤ p.2) →
      ∀ p ∈ L.foldl Counter.incr c, 1 ≤ p.2 := by
  induction L with
  | nil => intro c h; simpa using h
  | cons x rest ih =>
    intro c h
    simp only [List.foldl_cons]
    exact ih _ (Counter.one_le_incr c x h)

theorem Counter.get_incr_ne (c : Counter) (k m : JSON) (h : m ≠ k) :
    (c.incr k).get m = c.get m := by
  induction c with
  | nil => simp [Counter.incr, Counter.get, Ne.symm h]
  | cons p rest ih =>
    obtain ⟨k2, n⟩ := p
    by_cases hk : k2 = k
    · subst hk
      simp [Counter.incr, Counter.get, Ne.symm h]
    · simp only [Counter.incr, if_neg hk, Counter.get]
      by_cases hm : k2 = m
      · simp [hm]
      · simp [hm, ih]

theorem Counter.get_eq_zero_of_not_mem (c : Counter) (k : JSON)
    (h : k ∉ c.keys) : c.get k = 0 := by
  induction c with
  | nil => rfl
  | cons p rest ih =>
    obtain ⟨k2, n⟩ := p
    simp only [Counter.keys, List.map_cons, List.mem_cons] at h
    push_neg at h
    have h1 : ¬ k2 = k := fun hh => h.1 hh.symm
    simp only [Counter.get, if_neg h1]
    exact ih (by simpa [Counter.keys] using h.2)

theorem exBind_ok {α β : Type} (a : α) (f : α → Except String β) :
    (Except.ok a >>= f) = f a := rfl

theorem exBind_error {α β : Type} (e : String) (f : α → Except String β) :
    ((Except.error e : Except String α) >>= f) = Except.error e := rfl

theorem exMap_ok {α β : Type} (f : α → β) (a : α) :
    (Except.ok a : Except String α).map f = Except.ok (f a) := rfl

theorem exMap_error {α β : Type} (f : α → β) (e : String) :
    (Except.error e : Except String α).map f = (Except.error e : Except String β) := rfl

theorem exPure {α : Type} (a : α) : (pure a : Except String α) = Except.ok a := rfl

theorem processVuln_eq (c : Counter) (vuln : JSON) :
    processVuln c vuln = (vulnSeverity vuln).map c.incr := by
  unfold processVuln vulnSeverity
  cases hg : pyGet vuln "Severity" (JSON.str "UNKNOWN") with
  | error e => simp [exMap_error]
  | ok sev =>
    by_cases hh : hashable sev
    · simp [hh, exMap_ok]
    · simp [hh, exMap_error]

theorem foldlM_processVuln_eq (vulns : List JSON) :
    ∀ c : Counter,
      vulns.foldlM processVuln c =
        (vulns.mapM vulnSeverity).map (fun L => L.foldl Counter.incr c) := by
  induction vulns with
  | nil => intro c; rfl
  | cons v rest ih =>
    intro c
    rw [List.foldlM_cons, List.mapM_cons, processVuln_eq]
    cases hv : vulnSeverity v with
    | error e => simp [exMap_error, exBind_error]
    | ok s =>
      rw [exMap_ok, exBind_ok, exBind_ok, ih]
      cases hr : rest.mapM vulnSeverity with
      | error e => simp [exMap_error, exBind_error]
      | ok L => simp [exMap_ok, exBind_ok, exPure]

theorem mapM_ok_length {α β : Type} (f : α → Except String β) :
    ∀ (l : List α) (L : List β), l.mapM f = Except.ok L → L.length = l.length := by
  intro l
  induction l with
  | nil =>
    intro L h
    rw [List.mapM_nil, exPure] at h
    cases h
    rfl
  | cons x rest ih =>
    intro L h
    rw [List.mapM_cons] at h
    cases hx : f x with
    | error e => rw [hx, exBind_error] at h; exact absurd h (by simp)
    | ok b =>
      rw [hx, exBind_ok] at h
      cases hr : rest.mapM f with
      | error e => rw [hr, exBind_error] at h; exact absurd h (by simp)
      | ok bs =>
        rw [hr, exBind_ok, exPure] at h
        cases h
        simp [ih bs hr]

theorem pyIter_pyLen (v : JSON) (l : List JSON) (h : pyIter v = Except.ok l) :
    pyLen v = Except.ok l.length := by
  cases v <;> simp [pyIter] at h <;> simp [pyLen, ← h]

theorem processResult_eq (st : Counter × Nat) (result : JSON) :
    processResult st result =
      (sectionSeverities result).map
        (fun L => (L.foldl Counter.incr st.1, st.2 + L.length)) := by
  unfold processResult sectionSeverities
  cases hc : pyContains result "Vulnerabilities" with
  | error e => simp [exMap_error]
  | ok b =>
    cases b with
    | false => simp [exMap_ok]
    | true =>
      simp only []
      cases hi : pyIndex result "Vulnerabilities" with
      | error e => simp [exMap_error]
      | ok v =>
        by_cases hv : v = JSON.null
        · simp [hv, exMap_ok]
        · simp only [if_neg hv]
          cases v with
          | null => exact absurd rfl hv
          | bool x => simp [pyLen, pyIter, exMap_error]
          | num x => simp [pyLen, pyIter, exMap_error]
          | str s =>
            simp only [pyLen, pyIter, foldlM_processVuln_eq]
            cases hm : (s.toList.map fun ch => JSON.str (String.mk [ch])).mapM vulnSeverity with
            | error e => simp [exMap_error]
            | ok L =>
              have hlen : L.length = s.length := by
                have := mapM_ok_length vulnSeverity _ _ hm
                simpa using this
              simp [exMap_ok, hlen]
          | arr xs =>
            simp only [pyLen, pyIter, foldlM_processVuln_eq]
            cases hm : xs.mapM vulnSeverity with
            | error e => simp [exMap_error]
            | ok L =>
              have hlen : L.length = xs.length := mapM_ok_length vulnSeverity _ _ hm
              simp [exMap_ok, hlen]
          | obj fs =>
            simp only [pyLen, pyIter, foldlM_processVuln_eq]
            cases hm : (fs.map fun kv => JSON.str kv.1).mapM vulnSeverity with
            | error e => simp [exMap_error]
            | ok L =>
              have hlen : L.length = fs.length := by
                have := mapM_ok_length vulnSeverity _ _ hm
                simpa using this
              simp [exMap_ok, hlen]

theorem processResultCG_eq (c : Counter) (result : JSON) :
    processResultCG c result =
      (sectionSeverities result).map (fun L => L.foldl Counter.incr c) := by
  unfold processResultCG sectionSeverities
  cases hc : pyContains result "Vulnerabilities" with
  | error e => simp [exMap_error]
  | ok b =>
    cases b with
    | false => simp [exMap_ok]
    | true =>
      simp only []
      cases hi : pyIndex result "Vulnerabilities" with
      | error e => simp [exMap_error]
      | ok v =>
        by_cases hv : v = JSON.null
        · simp [hv, exMap_ok]
        · simp only [if_neg hv]
          cases v with
          | null => exact absurd rfl hv
          | bool x => simp [pyIter, exMap_error]
          | num x => simp [pyIter, exMap_error]
          | str s => simp only [pyIter, foldlM_processVuln_eq]
          | arr xs => simp only [pyIter, foldlM_processVuln_eq]
          | obj fs => simp only [pyIter, foldlM_processVuln_eq]

theorem sevListFold_acc (g : JSON → Except String (List JSON)) (xs : List JSON) :
    ∀ acc : List JSON,
      sevListFold g xs acc = (sevListFold g xs []).map (fun L => acc ++ L) := by
  induction xs with
  | nil => intro acc; simp [sevListFold, exPure, exMap_ok]
  | cons x rest ih =>
    intro acc
    unfold sevListFold
    rw [List.foldlM_cons, List.foldlM_cons]
    cases hg : g x with
    | error e => simp [exMap_error, exBind_error]
    | ok ls =>
      rw [exMap_ok, exBind_ok, exMap_ok, exBind_ok]
      show sevListFold g rest (acc ++ ls) = _
      rw [ih (acc ++ ls)]
      show _ = Except.map _ (sevListFold g rest ([] ++ ls))
      rw [List.nil_append, ih ls]
      cases hr : sevListFold g rest [] with
      | error e => simp [exMap_error]
      | ok L => simp [exMap_ok]

theorem foldlM_sev_pair (f : Counter × Nat → JSON → Except String (Counter × Nat))
    (g : JSON → Except String (List JSON))
    (hfg : ∀ st x, f st x =
      (g x).map (fun L => (L.foldl Counter.incr st.1, st.2 + L.length)))
    (xs : List JSON) :
    ∀ st : Counter × Nat,
      xs.foldlM f st =
        (sevListFold g xs []).map
          (fun L => (L.foldl Counter.incr st.1, st.2 + L.length)) := by
  induction xs with
  | nil =>
    intro st
    simp [sevListFold, exPure, exMap_ok]
  | cons x rest ih =>
    intro st
    rw [List.foldlM_cons, hfg]
    unfold sevListFold
    rw [List.foldlM_cons]
    cases hg : g x with
    | error e => simp [exMap_error, exBind_error]
    | ok ls =>
      rw [exMap_ok, exBind_ok, exMap_ok, exBind_ok, ih]
      show _ = Except.map _ (sevListFold g rest ([] ++ ls))
      rw [List.nil_append, sevListFold_acc g rest ls]
      cases hr : sevListFold g rest [] with
      | error e => simp [exMap_error]
      | ok L =>
        simp only [exMap_ok]
        rw [List.foldl_append, List.length_append]
        simp [Nat.add_assoc]

theorem foldlM_sev_counter (f : Counter → JSON → Except String Counter)
    (g : JSON → Except String (List JSON))
    (hfg : ∀ c x, f c x = (g x).map (fun L => L.foldl Counter.incr c))
    (xs : List JSON) :
    ∀ c : Counter,
      xs.foldlM f c =
        (sevListFold g xs []).map (fun L => L.foldl Counter.incr c) := by
  induction xs with
  | nil =>
    intro c
    simp [sevListFold, exPure, exMap_ok]
  | cons x rest ih =>
    intro c
    rw [List.foldlM_cons, hfg]
    unfold sevListFold
    rw [List.foldlM_cons]
    cases hg : g x with
    | error e => simp [exMap_error, exBind_error]
    | ok ls =>
      rw [exMap_ok, exBind_ok, exMap_ok, exBind_ok, ih]
      show _ = Except.map _ (sevListFold g rest ([] ++ ls))
      rw [List.nil_append, sevListFold_acc g rest ls]
      cases hr : sevListFold g rest [] with
      | error e => simp [exMap_error]
      | ok L =>
        simp only [exMap_ok]
        rw [List.foldl_append]

theorem processReport_eq (st : Counter × Nat) (report : JSON) :
    processReport st report =
      (docSeverities report).map
        (fun L => (L.foldl Counter.incr st.1, st.2 + L.length)) := by
  unfold processReport docSeverities
  cases hc : pyContains report "Results" with
  | error e => simp [exMap_error]
  | ok b =>
    cases b with
    | false => simp [exMap_ok]
    | true =>
      simp only []
      cases hi : pyIndex report "Results" with
      | error e => simp [exMap_error]
      | ok v =>
        cases v with
        | arr results => exact foldlM_sev_pair _ _ processResult_eq results st
        | null => simp [exMap_ok]
        | bool x => simp [exMap_ok]
        | num x => simp [exMap_ok]
        | str s => simp [exMap_ok]
        | obj fs => simp [exMap_ok]

theorem parse_trivy_json_core_eq (data : JSON) :
    parse_trivy_json_core data =
      (docSeverities data).map (fun L => L.foldl Counter.incr []) := by
  unfold parse_trivy_json_core docSeverities
  cases hc : pyContains data "Results" with
  | error e => simp [exMap_error]
  | ok b =>
    cases b with
    | false => simp [exMap_ok]
    | true =>
      simp only []
      cases hi : pyIndex data "Results" with
      | error e => simp [exMap_error]
      | ok v =>
        cases v with
        | arr results => exact foldlM_sev_counter _ _ processResultCG_eq results []
        | null => simp [exMap_ok]
        | bool x => simp [exMap_ok]
        | num x => simp [exMap_ok]
        | str s => simp [exMap_ok]
        | obj fs => simp [exMap_ok]

theorem severityAggregate_eq (data : JSON) :
    severityAggregate data =
      (jsonSeverities data).map (fun L => (L.foldl Counter.incr [], L.length)) := by
  unfold severityAggregate jsonSeverities
  have := foldlM_sev_pair processReport docSeverities processReport_eq
    (match data with
     | JSON.arr xs => xs
     | d => [d]) ([], 0)
  simpa using this

theorem sevListFold_single (g : JSON → Except String (List JSON)) (x : JSON) :
    sevListFold g [x] [] = g x := by
  unfold sevListFold
  rw [List.foldlM_cons]
  cases hg : g x with
  | error e => simp [exMap_error, exBind_error]
  | ok L => simp [exMap_ok, exBind_ok, exPure]

theorem foldlM_isOk {σ : Type} (f : σ → JSON → Except String σ) (P : JSON → Bool)
    (hf : ∀ s x, P x = true → ∃ s2, f s x = Except.ok s2) :
    ∀ (xs : List JSON) (s : σ), xs.all P = true →
      ∃ s2, xs.foldlM f s = Except.ok s2 := by
  intro xs
  induction xs with
  | nil => intro s _; exact ⟨s, rfl⟩
  | cons x rest ih =>
    intro s hall
    rw [List.all_cons, Bool.and_eq_true] at hall
    obtain ⟨s1, h1⟩ := hf s x hall.1
    obtain ⟨s2, h2⟩ := ih s1 hall.2
    exact ⟨s2, by rw [List.foldlM_cons, h1, exBind_ok, h2]⟩

theorem processVuln_ok (c : Counter) (vuln : JSON) (h : findingOK vuln = true) :
    ∃ c2, processVuln c vuln = Except.ok c2 := by
  cases vuln with
  | obj fields =>
    unfold processVuln pyGet
    cases hl : lookupField fields "Severity" with
    | none => exact ⟨c.incr (JSON.str "UNKNOWN"), by simp [hl, hashable]⟩
    | some v =>
      have hv : hashable v = true := by simpa [findingOK, hl] using h
      exact ⟨c.incr v, by simp [hl, hv]⟩
  | null => simp [findingOK] at h
  | bool x => simp [findingOK] at h
  | num x => simp [findingOK] at h
  | str s => simp [findingOK] at h
  | arr xs => simp [findingOK] at h

theorem processResult_ok (st : Counter × Nat) (result : JSON)
    (h : sectionOK result = true) :
    ∃ st2, processResult st result = Except.ok st2 := by
  cases result with
  | obj fields =>
    unfold processResult pyContains pyIndex
    cases hl : lookupField fields "Vulnerabilities" with
    | none => exact ⟨st, by simp [hl]⟩
    | some v =>
      cases v with
      | null => exact ⟨st, by simp [hl]⟩
      | arr vulns =>
        have hall : vulns.all findingOK = true := by
          simpa [sectionOK, hl] using h
        obtain ⟨c2, hc2⟩ :=
          foldlM_isOk processVuln findingOK (fun s x hx => processVuln_ok s x hx)
            vulns st.1 hall
        refine ⟨(c2, st.2 + vulns.length), ?_⟩
        simp [hl, pyLen, pyIter, hc2]
      | bool x => simp [sectionOK, hl] at h
      | num x => simp [sectionOK, hl] at h
      | str s => simp [sectionOK, hl] at h
      | obj fs => simp [sectionOK, hl] at h
  | null => simp [sectionOK] at h
  | bool x => simp [sectionOK] at h
  | num x => simp [sectionOK] at h
  | str s => simp [sectionOK] at h
  | arr xs => simp [sectionOK] at h

theorem processReport_ok (st : Counter × Nat) (report : JSON)
    (h : docOK report = true) :
    ∃ st2, processReport st report = Except.ok st2 := by
  cases report with
  | obj fields =>
    unfold processReport pyContains pyIndex
    cases hl : lookupField fields "Results" with
    | none => exact ⟨st, by simp [hl]⟩
    | some v =>
      cases v with
      | arr results =>
        have hall : results.all sectionOK = true := by
          simpa [docOK, hl] using h
        obtain ⟨st2, hst2⟩ :=
          foldlM_isOk processResult sectionOK (fun s x hx => processResult_ok s x hx)
            results st hall
        exact ⟨st2, by simp [hl, hst2]⟩
      | null => exact ⟨st, by simp [hl]⟩
      | bool x => exact ⟨st, by simp [hl]⟩
      | num x => exact ⟨st, by simp [hl]⟩
      | str s => exact ⟨st, by simp [hl]⟩
      | obj fs => exact ⟨st, by simp [hl]⟩
  | null => simp [docOK] at h
  | bool x => simp [docOK] at h
  | num x => simp [docOK] at h
  | str s => simp [docOK] at h
  | arr xs => simp [docOK] at h

theorem severityAggregate_ok (data : JSON) (h : reportOK data = true) :
    ∃ st, severityAggregate data = Except.ok st := by
  cases data with
  | arr docs =>
    have hall : docs.all docOK = true := by simpa [reportOK] using h
    exact foldlM_isOk processReport docOK
      (fun s x hx => processReport_ok s x hx) docs ([], 0) hall
  | obj fields =>
    have hd : docOK (JSON.obj fields) = true := by simpa [reportOK] using h
    obtain ⟨st2, hst2⟩ := processReport_ok ([], 0) (JSON.obj fields) hd
    exact ⟨st2, by
      unfold severityAggregate
      rw [List.foldlM_cons, hst2, exBind_ok, List.foldlM_nil, exPure]⟩
  | null => simp [reportOK, docOK] at h
  | bool x => simp [reportOK, docOK] at h
  | num x => simp [reportOK, docOK] at h
  | str s => simp [reportOK, docOK] at h

/-- The spec's first scenario input:
`Results: [Vulnerabilities: [Severity HIGH, Severity HIGH, no field]]`. -/
def sampleReport : JSON :=
  JSON.obj [("Results", JSON.arr
    [JSON.obj [("Vulnerabilities", JSON.arr
      [JSON.obj [("Severity", JSON.str "HIGH")],
       JSON.obj [("Severity", JSON.str "HIGH")],
       JSON.obj []])]])]

/-- A one-section report with a single HIGH Finding. -/
def singleDoc : JSON :=
  JSON.obj [("Results", JSON.arr
    [JSON.obj [("Vulnerabilities", JSON.arr
      [JSON.obj [("Severity", JSON.str "HIGH")]])]])]

/-- C4 (confirmed): for every well-formed Report, the sum of all values in
the tally equals the returned total.  Proved in the strong form that holds
for the code: whenever the aggregation of `parse_results.py` returns at
all, `sum(severity_counts.values()) == total_vulnerabilities`. -/
theorem claim_C4 (data : JSON) (c : Counter) (n : Nat)
    (h : severityAggregate data = Except.ok (c, n)) : c.total = n := by
  rw [severityAggregate_eq] at h
  cases hj : jsonSeverities data with
  | error e => rw [hj, exMap_error] at h; exact absurd h (by simp)
  | ok L =>
    rw [hj, exMap_ok] at h
    injection h with h2
    injection h2 with hc hn
    rw [← hc, ← hn]
    simpa [Counter.total] using Counter.total_foldl L []

theorem claim_C4_witness :
    severityAggregate sampleReport =
      Except.ok ([(JSON.str "HIGH", 2), (JSON.str "UNKNOWN", 1)], 3) ∧
    Counter.total [(JSON.str "HIGH", 2), (JSON.str "UNKNOWN", 1)] = 3 :=
  ⟨rfl, claim_C4 sampleReport [(JSON.str "HIGH", 2), (JSON.str "UNKNOWN", 1)] 3 rfl⟩

/-- C10 (confirmed): every key stored in the tally has a count of at least
one — zero-count entries are never stored — and a label appears as a tally
key exactly when at least one traversed Finding carried that severity
(after the `UNKNOWN` default substitution); the `jsonSeverities` list is
the sequence of severity labels the traversal computes, one per Finding. -/
theorem claim_C10 (data : JSON) (c : Counter) (n : Nat) (L : List JSON)
    (h1 : severityAggregate data = Except.ok (c, n))
    (h2 : jsonSeverities data = Except.ok L) :
    (∀ p ∈ c, 1 ≤ p.2) ∧ (∀ k : JSON, k ∈ c.keys ↔ k ∈ L) := by
  rw [severityAggregate_eq, h2, exMap_ok] at h1
  injection h1 with h3
  injection h3 with hc hn
  constructor
  · rw [← hc]
    exact Counter.one_le_foldl L [] (by intro p hp; exact absurd hp (by simp))
  · intro k
    rw [← hc]
    have := Counter.mem_keys_foldl L [] k
    simpa [Counter.keys] using this

theorem claim_C10_witness :
    severityAggregate sampleReport =
      Except.ok ([(JSON.str "HIGH", 2), (JSON.str "UNKNOWN", 1)], 3) ∧
    jsonSeverities sampleReport =
      Except.ok [JSON.str "HIGH", JSON.str "HIGH", JSON.str "UNKNOWN"] ∧
    ((∀ p ∈ ([(JSON.str "HIGH", 2), (JSON.str "UNKNOWN", 1)] : Counter), 1 ≤ p.2) ∧
      (∀ k : JSON, k ∈ Counter.keys [(JSON.str "HIGH", 2), (JSON.str "UNKNOWN", 1)] ↔
        k ∈ [JSON.str "HIGH", JSON.str "HIGH", JSON.str "UNKNOWN"])) :=
  ⟨rfl, rfl, claim_C10 sampleReport [(JSON.str "HIGH", 2), (JSON.str "UNKNOWN", 1)] 3
    [JSON.str "HIGH", JSON.str "HIGH", JSON.str "UNKNOWN"] rfl rfl⟩

/-- C5 is refuted as stated: on the sequence form `[d]` of a report the two
scripts disagree — `parse_results.py` aggregates the wrapped document,
while `parse_trivy_json` of `create_graphs.py` finds no `Results` key in a
list and returns an empty tally. -/
theorem claim_C5_counterexample :
    severityAggregate (JSON.arr [singleDoc]) =
      Except.ok ([(JSON.str "HIGH", 1)], 1) ∧
    parse_trivy_json_core (JSON.arr [singleDoc]) = Except.ok [] ∧
    (Except.ok ([(JSON.str "HIGH", 1)] : Counter) : Except String Counter) ≠
      Except.ok [] :=
  ⟨rfl, rfl, by simp⟩

/-- C5 (amended): the aggregation logic of the two scripts agrees on every
non-sequence (single-document) input: the tally computed inline by
`parse_results.py` equals the tally returned by `parse_trivy_json` of
`create_graphs.py`, including which exception is raised when one raises.
On sequence inputs the two differ. -/
theorem claim_C5 (d : JSON) (h : ∀ xs : List JSON, d ≠ JSON.arr xs) :
    (severityAggregate d).map Prod.fst = parse_trivy_json_core d := by
  rw [severityAggregate_eq, parse_trivy_json_core_eq]
  have hj : jsonSeverities d = docSeverities d := by
    unfold jsonSeverities
    cases d with
    | arr xs => exact absurd rfl (h xs)
    | null => exact sevListFold_single docSeverities _
    | bool x => exact sevListFold_single docSeverities _
    | num x => exact sevListFold_single docSeverities _
    | str s => exact sevListFold_single docSeverities _
    | obj fields => exact sevListFold_single docSeverities _
  rw [hj]
  cases hd : docSeverities d with
  | error e => simp [exMap_error]
  | ok L => simp [exMap_ok]

theorem claim_C5_witness :
    (∀ xs : List JSON, singleDoc ≠ JSON.arr xs) ∧
    (severityAggregate singleDoc).map Prod.fst = parse_trivy_json_core singleDoc :=
  ⟨fun _ hh => JSON.noConfusion hh,
   claim_C5 singleDoc (fun _ hh => JSON.noConfusion hh)⟩

/-- C2 is refuted as stated: `parse_trivy_json` of `create_graphs.py` does
not accept the sequence form — on the singleton sequence `[d]` it returns
an empty tally while on `d` it returns the real tally. -/
theorem claim_C2_counterexample :
    parse_trivy_json_core (JSON.arr [singleDoc]) = Except.ok [] ∧
    parse_trivy_json_core singleDoc = Except.ok [(JSON.str "HIGH", 1)] ∧
    (Except.ok ([] : Counter) : Except String Counter) ≠
      Except.ok [(JSON.str "HIGH", 1)] :=
  ⟨rfl, rfl, by simp⟩

/-- C2 (amended): only `parse_results.py` accepts both forms of a Report:
its aggregation of the singleton sequence `[d]` coincides with its
aggregation of `d`, and a sequence input is folded document by document;
`parse_trivy_json` of `create_graphs.py` handles only the single-object
form — on a sequence of report objects (none of which is the literal
string `Results`) it tallies nothing and returns an empty counter. -/
theorem claim_C2 :
    (∀ d : JSON, (∀ xs : List JSON, d ≠ JSON.arr xs) →
      severityAggregate (JSON.arr [d]) = severityAggregate d) ∧
    (∀ ds : List JSON, JSON.str "Results" ∉ ds →
      parse_trivy_json_core (JSON.arr ds) = Except.ok []) := by
  constructor
  · intro d h
    cases d with
    | arr xs => exact absurd rfl (h xs)
    | null => rfl
    | bool x => rfl
    | num x => rfl
    | str s => rfl
    | obj fields => rfl
  · intro ds h
    have hany : (ds.any fun x => decide (x = JSON.str "Results")) = false := by
      rw [List.any_eq_false]
      intro x hx
      simp only [decide_eq_true_eq]
      intro he
      exact h (he ▸ hx)
    unfold parse_trivy_json_core
    rw [show pyContains (JSON.arr ds) "Results" =
          Except.ok (ds.any fun x => decide (x = JSON.str "Results")) from rfl, hany]

theorem claim_C2_witness :
    severityAggregate (JSON.arr [singleDoc]) = severityAggregate singleDoc ∧
    JSON.str "Results" ∉ [singleDoc] ∧
    parse_trivy_json_core (JSON.arr [singleDoc]) = Except.ok [] :=
  ⟨claim_C2.1 singleDoc (fun _ hh => JSON.noConfusion hh),
   by decide,
   claim_C2.2 [singleDoc] (by decide)⟩

/-- C3 is refuted as stated: a Finding whose `Severity` field is present
but null is not counted under `UNKNOWN` — `dict.get` only substitutes the
default for an absent key, so the Finding is tallied under the null value
itself and the `UNKNOWN` entry stays at 0. -/
theorem claim_C3_counterexample :
    severityAggregate
      (JSON.obj [("Results", JSON.arr
        [JSON.obj [("Vulnerabilities", JSON.arr
          [JSON.obj [("Severity", JSON.null)]])]])]) =
      Except.ok ([(JSON.null, 1)], 1) ∧
    Counter.get [(JSON.null, 1)] (JSON.str "UNKNOWN") = 0 :=
  ⟨rfl, rfl⟩

/-- C3 (amended): a Finding with no `Severity` field is counted under the
exact label `UNKNOWN`; a Finding whose `Severity` field is present but
null is counted under the null value itself, not under `UNKNOWN`. -/
theorem claim_C3 (c : Counter) (fields : List (String × JSON)) :
    (lookupField fields "Severity" = none →
      processVuln c (JSON.obj fields) = Except.ok (c.incr (JSON.str "UNKNOWN"))) ∧
    (lookupField fields "Severity" = some JSON.null →
      processVuln c (JSON.obj fields) = Except.ok (c.incr JSON.null)) := by
  constructor
  · intro h
    unfold processVuln
    rw [show pyGet (JSON.obj fields) "Severity" (JSON.str "UNKNOWN") =
          Except.ok ((lookupField fields "Severity").getD (JSON.str "UNKNOWN")) from rfl,
        h]
    rfl
  · intro h
    unfold processVuln
    rw [show pyGet (JSON.obj fields) "Severity" (JSON.str "UNKNOWN") =
          Except.ok ((lookupField fields "Severity").getD (JSON.str "UNKNOWN")) from rfl,
        h]
    rfl

theorem claim_C3_witness :
    (lookupField [("Severity", JSON.null)] "Severity" = some JSON.null ∧
      processVuln [] (JSON.obj [("Severity", JSON.null)]) =
        Except.ok (Counter.incr [] JSON.null)) ∧
    (lookupField [("VulnerabilityID", JSON.str "CVE-1")] "Severity" = none ∧
      processVuln [] (JSON.obj [("VulnerabilityID", JSON.str "CVE-1")]) =
        Except.ok (Counter.incr [] (JSON.str "UNKNOWN"))) :=
  ⟨⟨rfl, (claim_C3 [] [("Severity", JSON.null)]).2 rfl⟩,
   ⟨rfl, (claim_C3 [] [("VulnerabilityID", JSON.str "CVE-1")]).1 rfl⟩⟩

/-- C6 is refuted as stated: a `Results` list containing a non-object
element makes both aggregators raise a `TypeError` (Python's `in` test is
applied to the element), rather than that element contributing nothing. -/
theorem claim_C6_counterexample :
    severityAggregate (JSON.obj [("Results", JSON.arr [JSON.num 5])]) =
      Except.error "TypeError" ∧
    parse_trivy_json_core (JSON.obj [("Results", JSON.arr [JSON.num 5])]) =
      Except.error "TypeError" :=
  ⟨rfl, rfl⟩

/-- C6 (amended): lookups on absent, null or non-list optional fields do
degrade to contributing nothing, and on every decoded document whose
`Results` list elements are all objects with `Vulnerabilities` absent,
null, or a list of objects (with hashable `Severity` values), both
aggregators succeed; but a `Results` list containing a non-object element
(or a non-null, non-list `Vulnerabilities` value) raises a `TypeError`
instead of being skipped. -/
theorem claim_C6 (data : JSON) (h : reportOK data = true) :
    (∃ st, severityAggregate data = Except.ok st) ∧
    (∃ c2, parse_trivy_json_core data = Except.ok c2) := by
  refine ⟨severityAggregate_ok data h, ?_⟩
  cases data with
  | arr docs =>
    have hall : docs.all docOK = true := by simpa [reportOK] using h
    have hany : (docs.any fun x => decide (x = JSON.str "Results")) = false := by
      rw [List.any_eq_false]
      intro x hx
      simp only [decide_eq_true_eq]
      intro he
      have hd : docOK x = true := List.all_eq_true.mp hall x hx
      rw [he] at hd
      simp [docOK] at hd
    refine ⟨[], ?_⟩
    unfold parse_trivy_json_core
    rw [show pyContains (JSON.arr docs) "Results" =
          Except.ok (docs.any fun x => decide (x = JSON.str "Results")) from rfl, hany]
  | obj fields =>
    obtain ⟨st, hst⟩ := severityAggregate_ok (JSON.obj fields) h
    rw [severityAggregate_eq] at hst
    cases hj : jsonSeverities (JSON.obj fields) with
    | error e => rw [hj, exMap_error] at hst; exact absurd hst (by simp)
    | ok L =>
      have hd : docSeverities (JSON.obj fields) = Except.ok L := by
        rw [← sevListFold_single docSeverities (JSON.obj fields)]
        exact hj
      rw [parse_trivy_json_core_eq, hd, exMap_ok]
      exact ⟨_, rfl⟩
  | null => simp [reportOK, docOK] at h
  | bool x => simp [reportOK, docOK] at h
  | num x => simp [reportOK, docOK] at h
  | str s => simp [reportOK, docOK] at h

theorem claim_C6_witness :
    reportOK (JSON.arr
      [JSON.obj [("Results", JSON.null)],
       JSON.obj [],
       JSON.obj [("Results", JSON.arr
         [JSON.obj [("Vulnerabilities", JSON.null)],
          JSON.obj [("Vulnerabilities", JSON.arr [JSON.obj []])]])]]) = true ∧
    ((∃ st, severityAggregate (JSON.arr
      [JSON.obj [("Results", JSON.null)],
       JSON.obj [],
       JSON.obj [("Results", JSON.arr
         [JSON.obj [("Vulnerabilities", JSON.null)],
          JSON.obj [("Vulnerabilities", JSON.arr [JSON.obj []])]])]]) = Except.ok st) ∧
     (∃ c2, parse_trivy_json_core (JSON.arr
      [JSON.obj [("Results", JSON.null)],
       JSON.obj [],
       JSON.obj [("Results", JSON.arr
         [JSON.obj [("Vulnerabilities", JSON.null)],
          JSON.obj [("Vulnerabilities", JSON.arr [JSON.obj []])]])]]) = Except.ok c2)) :=
  ⟨rfl, claim_C6 _ rfl⟩

/-- C7 is refuted as stated: a `Vulnerabilities` value that is the string
`"no findings"` is not treated as empty — `len` counts its characters into
the total and the per-character `.get` call then raises `AttributeError`,
so the section neither contributes zero nor completes. -/
theorem claim_C7_counterexample :
    severityAggregate
      (JSON.obj [("Results", JSON.arr
        [JSON.obj [("Vulnerabilities", JSON.str "no findings")]])]) =
      Except.error "AttributeError" := rfl

/-- C7 (amended): a ResultSection whose `Vulnerabilities` field is absent,
null, or an empty list contributes zero findings — nothing to the total
and nothing to any tally entry; a non-empty string value such as
`"no findings"` instead makes the traversal raise. -/
theorem claim_C7 (st : Counter × Nat) (fields : List (String × JSON))
    (h : lookupField fields "Vulnerabilities" = none ∨
      lookupField fields "Vulnerabilities" = some JSON.null ∨
      lookupField fields "Vulnerabilities" = some (JSON.arr [])) :
    processResult st (JSON.obj fields) = Except.ok st := by
  unfold processResult
  have hcontains : pyContains (JSON.obj fields) "Vulnerabilities" =
      Except.ok (lookupField fields "Vulnerabilities").isSome := rfl
  have hidx : pyIndex (JSON.obj fields) "Vulnerabilities" =
      (match lookupField fields "Vulnerabilities" with
       | some v => Except.ok v
       | none => Except.error "KeyError") := rfl
  rcases h with h | h | h
  · rw [hcontains, h]
    rfl
  · rw [hcontains, hidx, h]
    rfl
  · rw [hcontains, hidx, h]
    show Except.ok (st.1, st.2 + 0) = Except.ok st
    rw [Nat.add_zero]

theorem claim_C7_witness :
    (lookupField [("Vulnerabilities", JSON.null)] "Vulnerabilities" = none ∨
      lookupField [("Vulnerabilities", JSON.null)] "Vulnerabilities" = some JSON.null ∨
      lookupField [("Vulnerabilities", JSON.null)] "Vulnerabilities" =
        some (JSON.arr [])) ∧
    processResult ([(JSON.str "LOW", 1)], 1) (JSON.obj [("Vulnerabilities", JSON.null)]) =
      Except.ok ([(JSON.str "LOW", 1)], 1) :=
  ⟨Or.inr (Or.inl rfl),
   claim_C7 ([(JSON.str "LOW", 1)], 1) [("Vulnerabilities", JSON.null)]
     (Or.inr (Or.inl rfl))⟩

/-- C8 (confirmed): a Finding whose `Severity` is a present string `s` is
tallied under exactly the label `s`, verbatim — and incrementing label `s`
leaves the count of every other label unchanged, so identical strings
share one entry while differently-cased strings stay distinct. -/
theorem claim_C8 (c : Counter) (fields : List (String × JSON)) (s : String)
    (h : lookupField fields "Severity" = some (JSON.str s)) :
    processVuln c (JSON.obj fields) = Except.ok (c.incr (JSON.str s)) ∧
    ∀ t : String, t ≠ s →
      (c.incr (JSON.str s)).get (JSON.str t) = c.get (JSON.str t) := by
  constructor
  · unfold processVuln
    rw [show pyGet (JSON.obj fields) "Severity" (JSON.str "UNKNOWN") =
          Except.ok ((lookupField fields "Severity").getD (JSON.str "UNKNOWN")) from rfl,
        h]
    rfl
  · intro t ht
    apply Counter.get_incr_ne
    intro he
    exact ht (JSON.str.inj he)

theorem claim_C8_witness :
    lookupField [("Severity", JSON.str "critical")] "Severity" =
      some (JSON.str "critical") ∧
    processVuln [] (JSON.obj [("Severity", JSON.str "critical")]) =
      Except.ok (Counter.incr [] (JSON.str "critical")) ∧
    Counter.get (Counter.incr [] (JSON.str "critical")) (JSON.str "CRITICAL") =
      Counter.get [] (JSON.str "CRITICAL") :=
  ⟨rfl,
   (claim_C8 [] [("Severity", JSON.str "critical")] "critical" rfl).1,
   (claim_C8 [] [("Severity", JSON.str "critical")] "critical" rfl).2 "CRITICAL"
     (by decide)⟩

/-- C9 (confirmed): the text-mode output is exactly one line per severity
in the order CRITICAL, HIGH, MEDIUM, LOW, UNKNOWN, each a left-justified
10-character label, `: `, and the count, followed by the separator line
and the TOTAL line — and a label absent from the tally is rendered as 0,
because the presentation lookup `counter.get(label, 0)` returns 0 for
every key the tally does not store. -/
theorem claim_C9 :
    (∀ (c : Counter) (t : Nat) (f : String),
      summaryPrints c t f = summaryPrintsSpec c t f) ∧
    (∀ (c : Counter) (k : JSON), k ∉ c.keys → c.get k = 0) := by
  constructor
  · intro c t f
    rfl
  · intro c k h
    exact Counter.get_eq_zero_of_not_mem c k h

theorem claim_C9_witness :
    summaryPrints [(JSON.str "HIGH", 2)] 2 "report.json" =
      summaryPrintsSpec [(JSON.str "HIGH", 2)] 2 "report.json" ∧
    JSON.str "LOW" ∉ Counter.keys [(JSON.str "HIGH", 2)] ∧
    Counter.get [(JSON.str "HIGH", 2)] (JSON.str "LOW") = 0 :=
  ⟨claim_C9.1 [(JSON.str "HIGH", 2)] 2 "report.json",
   by decide,
   claim_C9.2 [(JSON.str "HIGH", 2)] (JSON.str "LOW") (by decide)⟩

/-- C1 is refuted as stated: in the single-argument script
`parse_results.py`, the file-not-found and decode-error handlers only
print a message — the script then falls off the end of the `try`/`except`
and the process exits with status 0, not a non-zero status. -/
theorem claim_C1_counterexample :
    (parseResultsMain ["parse_results.py", "trivy-scan-results.json"]
      LoadResult.fileNotFound).exitCode = 0 ∧
    (parseResultsMain ["parse_results.py", "trivy-scan-results.json"]
      LoadResult.decodeError).exitCode = 0 :=
  ⟨rfl, rfl⟩

/-- C1 (amended): on a missing input file or malformed JSON both scripts
report a one-line message and produce no summary table (and, for the chart
script, no tally for the charts); the two-hardcoded-file variant exits
with status 1, while the single-argument script exits with status 0 —
it exits non-zero only when the filename argument is missing. -/
theorem claim_C1 (fn : String) :
    (parseResultsMain ["parse_results.py", fn] LoadResult.fileNotFound).printed.length = 1 ∧
    (parseResultsMain ["parse_results.py", fn] LoadResult.fileNotFound).summary = none ∧
    (parseResultsMain ["parse_results.py", fn] LoadResult.fileNotFound).exitCode = 0 ∧
    (parseResultsMain ["parse_results.py", fn] LoadResult.decodeError).printed.length = 1 ∧
    (parseResultsMain ["parse_results.py", fn] LoadResult.decodeError).summary = none ∧
    (parseResultsMain ["parse_results.py", fn] LoadResult.decodeError).exitCode = 0 ∧
    (∀ r : LoadResult,
      (parseResultsMain ["parse_results.py"] r).exitCode = 1 ∧
      (parseResultsMain ["parse_results.py"] r).summary = none) ∧
    parse_trivy_json_run fn LoadResult.fileNotFound =
      CGParseResult.exited
        ("Error: The file \x27" ++ fn ++ "\x27 was not found. Please generate the report first.") 1 ∧
    parse_trivy_json_run fn LoadResult.decodeError =
      CGParseResult.exited
        ("Error: Could not decode the JSON from \x27" ++ fn ++ "\x27. It may be corrupted.") 1 :=
  ⟨rfl, rfl, rfl, rfl, rfl, rfl, fun _ => ⟨rfl, rfl⟩, rfl, rfl⟩
